import Mathlib

/-!
Verification of the audio backend in src-tauri/src/lib.rs.

The façade commands (play_sfx, bgm_play, bgm_stop, bgm_volume) are modelled
as pure functions from their caller-supplied arguments plus a flag saying
whether the worker (the channel's sole consumer) is still alive, to the
Result returned to the caller together with the list of messages enqueued on
the channel.  f32 volumes are modelled as rationals; the clamp and the
epsilon comparison are order comparisons, exact in any linear order.

The worker thread's command loop is modelled as a step function on an
explicit worker-state record (music sink option, shadow bgm volume, the
queue of sources appended to the persistent sfx sink, the sfx sink volume,
and a counter of sink creations, used to observe whether a step created a
new sink).  Decode and sink-creation failures, which in the source depend on
the embedded bytes and the platform, are oracles in an environment record.

The procedural synthesizer enemy_pickup_source is modelled over the reals,
with the source's f32 formulas carried over exactly (decimal constants as
rationals, sin and tanh as their real counterparts).
-/

namespace VibeAudio

/-- The AudioMsg command enum sent over the crossbeam channel. -/
inductive AudioMsg where
  | Sfx (kind : String) (volume : ℚ)
  | BgmPlay (volume : ℚ)
  | BgmStop
  | BgmVolume (volume : ℚ)
deriving DecidableEq, Repr

/-- Rust's f32::clamp: if self < min then min else if self > max then max else self. -/
def clampQ (x lo hi : ℚ) : ℚ :=
  if x < lo then lo else if hi < x then hi else x

/-- The short-circuit threshold 0.0001 used by play_sfx and bgm_play. -/
def eps : ℚ := 1 / 10000

/-- Result of one façade call: the Result returned to the caller and the
messages actually enqueued on the channel by that call. -/
structure SendOutcome where
  result : Except String Unit
  sent : List AudioMsg
deriving Repr

/-- Sender.send on the channel: succeeds iff the worker (sole consumer) is
alive; on failure nothing is enqueued and the mapped error string is
returned. -/
def trySend (alive : Bool) (m : AudioMsg) : SendOutcome :=
  if alive then ⟨Except.ok (), [m]⟩ else ⟨Except.error "send: disconnected", []⟩

/-- The play_sfx tauri command. -/
def play_sfx (alive : Bool) (kind : String) (volume : ℚ) (muted : Bool) : SendOutcome :=
  if muted = true ∨ volume ≤ eps then ⟨Except.ok (), []⟩
  else trySend alive (AudioMsg.Sfx kind (clampQ volume 0 (3/2)))

/-- The bgm_play tauri command. -/
def bgm_play (alive : Bool) (volume : ℚ) (muted : Bool) : SendOutcome :=
  if muted = true ∨ volume ≤ eps then ⟨Except.ok (), []⟩
  else trySend alive (AudioMsg.BgmPlay (clampQ volume 0 1))

/-- The bgm_stop tauri command. -/
def bgm_stop (alive : Bool) : SendOutcome :=
  trySend alive AudioMsg.BgmStop

/-- The bgm_volume tauri command: when muted it sends BgmStop (propagating a
send failure, else Ok); otherwise it sends the clamped volume. -/
def bgm_volume (alive : Bool) (volume : ℚ) (muted : Bool) : SendOutcome :=
  if muted = true then trySend alive AudioMsg.BgmStop
  else trySend alive (AudioMsg.BgmVolume (clampQ volume 0 1))

/-- The embedded byte payloads (include_bytes!), abstracted by identity:
one music track and the seven sfx wav files. -/
inductive AssetBytes where
  | bgmOgg | uiWav | eatWav | boostWav | dashWav | shieldWav | poisonWav | deathWav
deriving DecidableEq, Repr

/-- bgm_bytes: the single embedded music payload. -/
def bgm_bytes : AssetBytes := AssetBytes.bgmOgg

/-- sfx_bytes: the match from effect name to embedded payload. -/
def sfx_bytes (kind : String) : Option AssetBytes :=
  if kind = "ui" then some AssetBytes.uiWav
  else if kind = "eat" then some AssetBytes.eatWav
  else if kind = "boost" then some AssetBytes.boostWav
  else if kind = "dash" then some AssetBytes.dashWav
  else if kind = "shield" then some AssetBytes.shieldWav
  else if kind = "poison" then some AssetBytes.poisonWav
  else if kind = "death" then some AssetBytes.deathWav
  else none

/-- The effect names sfx_bytes maps to payloads. -/
def sfxNames : List String := ["ui", "eat", "boost", "dash", "shield", "poison", "death"]

/-- A live music sink: its identity (creation number), current volume, and
whether the appended source loops (repeat_infinite). -/
structure MusicSink where
  sinkId : ℕ
  volume : ℚ
  looping : Bool
deriving DecidableEq, Repr

/-- A source appended to the persistent sfx sink: the procedural
enemy_pickup buffer or a decoded embedded asset, with its amplify factor. -/
inductive SfxSource where
  | procedural (amp : ℚ)
  | decoded (asset : AssetBytes) (amp : ℚ)
deriving DecidableEq, Repr

/-- The amplify factor applied to an appended source. -/
def SfxSource.amp : SfxSource → ℚ
  | .procedural a => a
  | .decoded _ a => a

/-- The worker thread's mutable state. -/
structure WorkerState where
  bgm : Option MusicSink
  bgm_vol : ℚ
  sfxQueue : List SfxSource
  sfxSinkVolume : ℚ
  nextSinkId : ℕ
deriving DecidableEq, Repr

/-- Oracles for the operations whose success depends on the platform or on
the embedded bytes: decoding an sfx payload, creating a bgm sink, and
decoding the bgm payload. -/
structure Env where
  sfxDecodeOk : AssetBytes → Bool
  bgmSinkOk : Bool
  bgmDecodeOk : Bool

/-- Worker state right after startup: no music sink, bgm_vol = 0.45, empty
persistent sfx sink at volume 1.0; the sfx sink took creation number 0. -/
def initState : WorkerState :=
  { bgm := none, bgm_vol := 9/20, sfxQueue := [], sfxSinkVolume := 1, nextSinkId := 1 }

/-- One iteration of the worker loop on a received message, mirroring the
match in run's spawned thread. -/
def step (env : Env) (st : WorkerState) (m : AudioMsg) : WorkerState :=
  match m with
  | AudioMsg.Sfx kind volume =>
      let amp := clampQ volume 0 2
      if kind = "enemy_pickup" then
        { st with sfxQueue := st.sfxQueue ++ [SfxSource.procedural amp] }
      else
        match sfx_bytes kind with
        | none => st
        | some bytes =>
            if env.sfxDecodeOk bytes then
              { st with sfxQueue := st.sfxQueue ++ [SfxSource.decoded bytes amp] }
            else st
  | AudioMsg.BgmPlay volume =>
      let st1 := { st with bgm_vol := volume }
      match st1.bgm with
      | none =>
          if env.bgmSinkOk then
            if env.bgmDecodeOk then
              { st1 with
                  bgm := some { sinkId := st1.nextSinkId, volume := volume, looping := true },
                  nextSinkId := st1.nextSinkId + 1 }
            else { st1 with nextSinkId := st1.nextSinkId + 1 }
          else st1
      | some s => { st1 with bgm := some { s with volume := volume } }
  | AudioMsg.BgmVolume volume =>
      let st1 := { st with bgm_vol := volume }
      match st1.bgm with
      | none => st1
      | some s => { st1 with bgm := some { s with volume := volume } }
  | AudioMsg.BgmStop => { st with bgm := none }

/-- The worker loop over a list of received messages. -/
def runWorker (env : Env) (st : WorkerState) (msgs : List AudioMsg) : WorkerState :=
  msgs.foldl (step env) st

/-- An all-success oracle environment, for concrete instantiations. -/
def envOk : Env := { sfxDecodeOk := fun _ => true, bgmSinkOk := true, bgmDecodeOk := true }

/-- clampQ lands in the interval when the bounds are ordered. -/
lemma clampQ_mem (x lo hi : ℚ) (h : lo ≤ hi) : lo ≤ clampQ x lo hi ∧ clampQ x lo hi ≤ hi := by
  unfold clampQ
  split
  · exact ⟨le_refl _, h⟩
  · split
    · exact ⟨h, le_refl _⟩
    · constructor
      · exact le_of_not_lt (by assumption)
      · exact le_of_not_lt (by assumption)

end VibeAudio

namespace VibeAudio

/-- C1 (counterexample): bgm_volume with muted = true on a live channel does
enqueue a command (BgmStop), so the short-circuit no-op claim fails for the
setMusicVolume entry point. -/
theorem bgm_volume_muted_enqueues :
    (bgm_volume true (1/2) true).sent = [AudioMsg.BgmStop]
    ∧ (bgm_volume true (1/2) true).sent ≠ [] := by
  constructor
  · rfl
  · intro hc
    simp [bgm_volume, trySend] at hc

/-- C1 (amended): for muted = true or volume ≤ epsilon, play_sfx and
bgm_play enqueue nothing and return Ok regardless of the channel's state;
bgm_volume with muted = true instead enqueues BgmStop when the channel is
alive (and nothing when it is closed). -/
theorem facade_short_circuit_noop (alive : Bool) (kind : String) (v : ℚ) (muted : Bool)
    (h : muted = true ∨ v ≤ eps) :
    (play_sfx alive kind v muted).sent = []
    ∧ (play_sfx alive kind v muted).result = Except.ok ()
    ∧ (bgm_play alive v muted).sent = []
    ∧ (bgm_play alive v muted).result = Except.ok ()
    ∧ (bgm_volume alive v true).sent = (if alive then [AudioMsg.BgmStop] else []) := by
  refine ⟨?_, ?_, ?_, ?_, ?_⟩
  · simp [play_sfx, h]
  · simp [play_sfx, h]
  · simp [bgm_play, h]
  · simp [bgm_play, h]
  · cases alive <;> simp [bgm_volume, trySend]

/-- Witness for facade_short_circuit_noop at muted = true, volume 1. -/
theorem facade_short_circuit_noop_witness :
    (play_sfx true "ui" 1 true).sent = []
    ∧ (play_sfx true "ui" 1 true).result = Except.ok ()
    ∧ (bgm_play true 1 true).sent = []
    ∧ (bgm_play true 1 true).result = Except.ok ()
    ∧ (bgm_volume true 1 true).sent = (if true then [AudioMsg.BgmStop] else []) :=
  facade_short_circuit_noop true "ui" 1 true (Or.inl rfl)

/-- C2 (counterexample): bgm_volume with volume 0 (below epsilon) and
muted = false enqueues BgmVolume 0, not BgmStop: the below-epsilon case of
the claim fails (only the muted case becomes a stop). -/
theorem bgm_volume_low_unmuted_sends_volume :
    (bgm_volume true 0 false).sent = [AudioMsg.BgmVolume 0]
    ∧ AudioMsg.BgmVolume 0 ≠ AudioMsg.BgmStop := by
  refine ⟨rfl, ?_⟩
  intro hc
  cases hc

/-- C2 (amended): bgm_volume with muted = true enqueues exactly BgmStop and
returns Ok (on a live channel), and the worker processing that traffic
leaves the music slot absent; with muted = false, even a volume below
epsilon is not short-circuited: the clamped BgmVolume command is enqueued. -/
theorem bgm_volume_muted_is_stop (env : Env) (st : WorkerState) (v : ℚ) :
    (bgm_volume true v true).sent = [AudioMsg.BgmStop]
    ∧ (bgm_volume true v true).result = Except.ok ()
    ∧ (runWorker env st (bgm_volume true v true).sent).bgm = none
    ∧ (bgm_volume true v false).sent = [AudioMsg.BgmVolume (clampQ v 0 1)] :=
  ⟨rfl, rfl, rfl, rfl⟩

/-- C3 (confirmed): any volume that passes the short-circuit check is sent
clamped — effects into [0, 3/2], music into [0, 1] — and on a live channel
every such call returns Ok: no volume is rejected with an error. -/
theorem facade_gain_clamped (kind : String) (v : ℚ) (muted : Bool)
    (h : ¬ (muted = true ∨ v ≤ eps)) :
    (play_sfx true kind v muted).sent = [AudioMsg.Sfx kind (clampQ v 0 (3/2))]
    ∧ (play_sfx true kind v muted).result = Except.ok ()
    ∧ 0 ≤ clampQ v 0 (3/2) ∧ clampQ v 0 (3/2) ≤ 3/2
    ∧ (bgm_play true v muted).sent = [AudioMsg.BgmPlay (clampQ v 0 1)]
    ∧ (bgm_play true v muted).result = Except.ok ()
    ∧ (bgm_volume true v muted).sent = [AudioMsg.BgmVolume (clampQ v 0 1)]
    ∧ (bgm_volume true v muted).result = Except.ok ()
    ∧ 0 ≤ clampQ v 0 1 ∧ clampQ v 0 1 ≤ 1 := by
  have hm : muted = false := by
    cases muted
    · rfl
    · exact absurd (Or.inl rfl) h
  subst hm
  have hv : ¬ v ≤ eps := fun hle => h (Or.inr hle)
  refine ⟨?_, ?_, (clampQ_mem v 0 (3/2) (by norm_num)).1, (clampQ_mem v 0 (3/2) (by norm_num)).2,
    ?_, ?_, ?_, ?_, (clampQ_mem v 0 1 (by norm_num)).1, (clampQ_mem v 0 1 (by norm_num)).2⟩ <;>
    simp [play_sfx, bgm_play, bgm_volume, trySend, hv]

/-- Witness for facade_gain_clamped at volume 2, muted = false. -/
theorem facade_gain_clamped_witness :
    (play_sfx true "ui" 2 false).sent = [AudioMsg.Sfx "ui" (clampQ 2 0 (3/2))]
    ∧ (play_sfx true "ui" 2 false).result = Except.ok ()
    ∧ 0 ≤ clampQ 2 0 (3/2) ∧ clampQ 2 0 (3/2) ≤ 3/2
    ∧ (bgm_play true 2 false).sent = [AudioMsg.BgmPlay (clampQ 2 0 1)]
    ∧ (bgm_play true 2 false).result = Except.ok ()
    ∧ (bgm_volume true 2 false).sent = [AudioMsg.BgmVolume (clampQ 2 0 1)]
    ∧ (bgm_volume true 2 false).result = Except.ok ()
    ∧ 0 ≤ clampQ 2 0 1 ∧ clampQ 2 0 1 ≤ 1 :=
  facade_gain_clamped "ui" 2 false (by norm_num [eps])

/-- C7 (counterexample): after the worker has terminated (channel closed),
play_sfx with muted = true still returns Ok, so not every call to every
entry point returns an error. -/
theorem play_sfx_muted_ok_after_shutdown :
    (play_sfx false "ui" 1 true).result = Except.ok () := rfl

/-- C7 (amended): once the channel is closed, every call that attempts a
send — play_sfx and bgm_play past their short-circuit, bgm_stop always,
bgm_volume always — returns the send error string deterministically, and
nothing is enqueued; short-circuited calls still return Ok.  Channel send is
the only error source. -/
theorem closed_channel_send_errors (kind : String) (v : ℚ) (muted : Bool) :
    (¬ (muted = true ∨ v ≤ eps) →
        (play_sfx false kind v muted).result = Except.error "send: disconnected"
        ∧ (bgm_play false v muted).result = Except.error "send: disconnected")
    ∧ ((muted = true ∨ v ≤ eps) →
        (play_sfx false kind v muted).result = Except.ok ()
        ∧ (bgm_play false v muted).result = Except.ok ())
    ∧ (bgm_stop false).result = Except.error "send: disconnected"
    ∧ (bgm_volume false v muted).result = Except.error "send: disconnected"
    ∧ (play_sfx false kind v muted).sent = []
    ∧ (bgm_play false v muted).sent = []
    ∧ (bgm_stop false).sent = []
    ∧ (bgm_volume false v muted).sent = [] := by
  refine ⟨fun h => ?_, fun h => ?_, rfl, ?_, ?_, ?_, rfl, ?_⟩
  · constructor <;> simp [play_sfx, bgm_play, trySend, h]
  · constructor <;> simp [play_sfx, bgm_play, h]
  · cases muted <;> simp [bgm_volume, trySend]
  · by_cases h : muted = true ∨ v ≤ eps <;> simp [play_sfx, trySend, h]
  · by_cases h : muted = true ∨ v ≤ eps <;> simp [bgm_play, trySend, h]
  · cases muted <;> simp [bgm_volume, trySend]

/-- Witness for closed_channel_send_errors: a non-short-circuited call errs
and a muted call still returns Ok, both on the closed channel. -/
theorem closed_channel_send_errors_witness :
    (play_sfx false "ui" 1 false).result = Except.error "send: disconnected"
    ∧ (play_sfx false "ui" 1 true).result = Except.ok () :=
  ⟨((closed_channel_send_errors "ui" 1 false).1 (by norm_num [eps])).1,
   ((closed_channel_send_errors "ui" 1 true).2.1 (Or.inl rfl)).1⟩

end VibeAudio

namespace VibeAudio

/-- A concrete state whose music slot is occupied, for witnesses. -/
def playingState : WorkerState :=
  { bgm := some { sinkId := 0, volume := 1/2, looping := true }, bgm_vol := 1/2,
    sfxQueue := [], sfxSinkVolume := 1, nextSinkId := 1 }

/-- C4 (confirmed): BgmPlay while the music slot is occupied keeps the same
sink (same identity, same looping source), sets its volume to the new gain,
creates no sink (creation counter unchanged), leaves the sfx sink untouched,
and updates the shadow music gain. -/
theorem start_music_while_playing (env : Env) (st : WorkerState) (s : MusicSink) (g : ℚ)
    (h : st.bgm = some s) :
    (step env st (AudioMsg.BgmPlay g)).bgm = some { s with volume := g }
    ∧ (step env st (AudioMsg.BgmPlay g)).nextSinkId = st.nextSinkId
    ∧ (step env st (AudioMsg.BgmPlay g)).sfxQueue = st.sfxQueue
    ∧ (step env st (AudioMsg.BgmPlay g)).sfxSinkVolume = st.sfxSinkVolume
    ∧ (step env st (AudioMsg.BgmPlay g)).bgm_vol = g
    ∧ MusicSink.sinkId { s with volume := g } = s.sinkId
    ∧ MusicSink.looping { s with volume := g } = s.looping := by
  simp [step, h]

/-- Witness for start_music_while_playing on a concrete occupied state. -/
theorem start_music_while_playing_witness :
    (step envOk playingState (AudioMsg.BgmPlay 1)).bgm
        = some { sinkId := 0, volume := 1, looping := true }
    ∧ (step envOk playingState (AudioMsg.BgmPlay 1)).nextSinkId = playingState.nextSinkId :=
  ⟨(start_music_while_playing envOk playingState ⟨0, 1/2, true⟩ 1 rfl).1,
   (start_music_while_playing envOk playingState ⟨0, 1/2, true⟩ 1 rfl).2.1⟩

/-- C6 (confirmed): an Sfx command whose kind is neither the procedural name
nor an embedded asset name leaves the worker state exactly as it was, and
the worker keeps processing the remaining messages as if the command had
never arrived. -/
theorem unknown_sfx_noop (env : Env) (st : WorkerState) (kind : String) (v : ℚ)
    (h1 : kind ≠ "enemy_pickup") (h2 : sfx_bytes kind = none) :
    step env st (AudioMsg.Sfx kind v) = st
    ∧ ∀ rest : List AudioMsg,
        runWorker env st (AudioMsg.Sfx kind v :: rest) = runWorker env st rest := by
  have hstep : step env st (AudioMsg.Sfx kind v) = st := by
    simp [step, h1, h2]
  exact ⟨hstep, fun rest => by simp [runWorker, List.foldl_cons, hstep]⟩

/-- Witness for unknown_sfx_noop at the unknown name "bogus". -/
theorem unknown_sfx_noop_witness :
    step envOk initState (AudioMsg.Sfx "bogus" 1) = initState :=
  (unknown_sfx_noop envOk initState "bogus" 1 (by decide) (by rfl)).1

/-- C9 (confirmed): whatever source an Sfx command appends to the persistent
effects sink is amplified by exactly the command volume clamped into [0, 2],
so the factor is never negative and never exceeds 2 even for gains outside
the façade's range. -/
theorem sfx_amp_clamped (env : Env) (st : WorkerState) (kind : String) (v : ℚ) :
    0 ≤ clampQ v 0 2 ∧ clampQ v 0 2 ≤ 2
    ∧ ((step env st (AudioMsg.Sfx kind v)).sfxQueue = st.sfxQueue
       ∨ ∃ src : SfxSource,
           (step env st (AudioMsg.Sfx kind v)).sfxQueue = st.sfxQueue ++ [src]
           ∧ src.amp = clampQ v 0 2) := by
  refine ⟨(clampQ_mem v 0 2 (by norm_num)).1, (clampQ_mem v 0 2 (by norm_num)).2, ?_⟩
  by_cases hk : kind = "enemy_pickup"
  · right
    exact ⟨SfxSource.procedural (clampQ v 0 2), by simp [step, hk], rfl⟩
  · cases hb : sfx_bytes kind with
    | none =>
        left
        simp [step, hk, hb]
    | some b =>
        by_cases hd : env.sfxDecodeOk b = true
        · right
          exact ⟨SfxSource.decoded b (clampQ v 0 2), by simp [step, hk, hb, hd], rfl⟩
        · left
          simp [step, hk, hb, hd]

/-- C10 (confirmed): BgmStop on an absent music slot is the identity on the
worker state, and two consecutive BgmStop commands leave the same state as
one. -/
theorem bgm_stop_idempotent (env : Env) (st : WorkerState) :
    (st.bgm = none → step env st AudioMsg.BgmStop = st)
    ∧ step env (step env st AudioMsg.BgmStop) AudioMsg.BgmStop = step env st AudioMsg.BgmStop
    ∧ runWorker env st [AudioMsg.BgmStop, AudioMsg.BgmStop]
        = runWorker env st [AudioMsg.BgmStop] := by
  refine ⟨fun h => ?_, rfl, rfl⟩
  obtain ⟨b, bv, q, sv, n⟩ := st
  simp_all [step]

/-- Witness for bgm_stop_idempotent on the initial (slot-absent) state. -/
theorem bgm_stop_idempotent_witness :
    step envOk initState AudioMsg.BgmStop = initState :=
  (bgm_stop_idempotent envOk initState).1 rfl

/-- C8 (counterexample): seven pairwise-distinct effect names all map to
embedded payloads, so the bank does not consist of six effect names. -/
theorem seven_effect_names :
    sfxNames.Nodup
    ∧ (∀ k ∈ sfxNames, (sfx_bytes k).isSome = true)
    ∧ sfxNames.length = 7 := by decide

/-- C8 (amended): the asset bank is one music payload plus exactly the seven
effect names ui, eat, boost, dash, shield, poison, death; any other name
yields no asset, and the music sink the worker creates loops its source. -/
theorem asset_bank_characterization :
    (∀ k : String, (sfx_bytes k).isSome = true ↔ k ∈ sfxNames)
    ∧ sfxNames.length = 7 ∧ sfxNames.Nodup
    ∧ bgm_bytes = AssetBytes.bgmOgg
    ∧ (∀ env : Env, ∀ st : WorkerState, ∀ g : ℚ,
        st.bgm = none → env.bgmSinkOk = true → env.bgmDecodeOk = true →
        ∃ s : MusicSink, (step env st (AudioMsg.BgmPlay g)).bgm = some s
          ∧ s.looping = true) := by
  refine ⟨?_, by decide, by decide, rfl, ?_⟩
  · intro k
    unfold sfx_bytes sfxNames
    split_ifs <;> simp_all
  · intro env st g hb hs hd
    refine ⟨{ sinkId := st.nextSinkId, volume := g, looping := true }, ?_, rfl⟩
    simp [step, hb, hs, hd]

/-- Witness for asset_bank_characterization: the worker's created music sink
on the initial state is looping. -/
theorem asset_bank_characterization_witness :
    ∃ s : MusicSink, (step envOk initState (AudioMsg.BgmPlay 1)).bgm = some s
      ∧ s.looping = true :=
  asset_bank_characterization.2.2.2.2 envOk initState 1 rfl rfl rfl

end VibeAudio

namespace VibeAudio

/-- Number of samples: 0.14 * 48000 truncated toward zero, mirroring
(dur_s * sr as f32) as usize in enemy_pickup_source. -/
def n_samples : ℕ := (⌊(14:ℚ)/100 * 48000⌋).toNat

/-- The pre-square envelope at sample index i (time i/48000): linear attack
over the first 10 ms, then linear decay floored at zero. -/
noncomputable def env0At (i : ℕ) : ℝ :=
  if (i : ℝ) / 48000 < 1/100 then ((i : ℝ) / 48000) / (1/100)
  else max ((14/100 - (i : ℝ) / 48000) / (14/100 - 1/100)) 0

/-- The squared envelope at sample index i. -/
noncomputable def envAt (i : ℕ) : ℝ := env0At i * env0At i

/-- The downward-chirp oscillator at sample index i: sin of
2·π·(f0 + (f1 − f0)·t/dur)·t with f0 = 820, f1 = 260, dur = 0.14. -/
noncomputable def chirpAt (i : ℕ) : ℝ :=
  Real.sin (2 * Real.pi * (820 + (260 - 820) * (((i : ℝ) / 48000) / (14/100)))
    * ((i : ℝ) / 48000))

/-- The sub click at sample index i, a 72 Hz sine ramped to zero over the
first 30 ms and silent afterwards. -/
noncomputable def subAt (i : ℕ) : ℝ :=
  if (i : ℝ) / 48000 < 3/100 then
    Real.sin (2 * Real.pi * 72 * ((i : ℝ) / 48000)) * (1 - ((i : ℝ) / 48000) / (3/100))
  else 0

/-- One output sample: tanh-saturated chirp weighted 0.75 plus sub click
weighted 0.45, scaled by the squared envelope. -/
noncomputable def sampleAt (i : ℕ) : ℝ :=
  (Real.tanh (chirpAt i * (135/100)) * (3/4) + subAt i * (45/100)) * envAt i

/-- The buffer SamplesBuffer::new(1, sr, out) returns. -/
structure SamplesBuffer where
  channels : ℕ
  sample_rate : ℕ
  data : List ℝ

/-- enemy_pickup_source, taking a unit argument so two invocations can be
compared: mono, 48 kHz, n_samples samples. -/
noncomputable def enemy_pickup_source (_ : Unit) : SamplesBuffer :=
  { channels := 1, sample_rate := 48000, data := (List.range n_samples).map sampleAt }

/-- The hyperbolic tangent is bounded by one in absolute value. -/
lemma abs_tanh_le_one (x : ℝ) : |Real.tanh x| ≤ 1 := by
  have hc := Real.cosh_pos x
  rw [Real.tanh_eq_sinh_div_cosh, abs_div, abs_of_pos hc, div_le_one hc]
  nlinarith [Real.cosh_sq' x, sq_abs (Real.sinh x), abs_nonneg (Real.sinh x)]

/-- Time is at least 0.13 s from sample 6250 on. -/
lemma time_ge (i : ℕ) (h : 6250 ≤ i) : (13:ℝ)/100 ≤ (i : ℝ) / 48000 := by
  have hi : (6250:ℝ) ≤ (i : ℝ) := by exact_mod_cast h
  rw [div_le_div_iff₀ (by norm_num) (by norm_num)]
  linarith

/-- The squared envelope is nonnegative. -/
lemma envAt_nonneg (i : ℕ) : 0 ≤ envAt i := by
  unfold envAt
  exact mul_self_nonneg _

/-- Past its first 10 ms the envelope is in its decay phase. -/
lemma env0At_decay (i : ℕ) (h : 6250 ≤ i) :
    env0At i = max ((14/100 - (i : ℝ) / 48000) / (14/100 - 1/100)) 0 := by
  unfold env0At
  rw [if_neg (not_lt.mpr (le_trans (by norm_num) (time_ge i h)))]

/-- In the final stretch of the buffer each sample is bounded in magnitude
by three quarters of the squared envelope. -/
lemma sample_decay_bound (i : ℕ) (h1 : 6250 ≤ i) :
    |sampleAt i| ≤ (3/4) * envAt i := by
  have hsub : subAt i = 0 := by
    unfold subAt
    rw [if_neg (not_lt.mpr (le_trans (by norm_num) (time_ge i h1)))]
  have htanh := abs_tanh_le_one (chirpAt i * (135/100))
  have henv := envAt_nonneg i
  unfold sampleAt
  rw [hsub, zero_mul, add_zero, abs_mul, abs_mul, abs_of_nonneg henv]
  have h34 : |(3/4 : ℝ)| = 3/4 := abs_of_nonneg (by norm_num)
  rw [h34]
  have hstep : |Real.tanh (chirpAt i * (135/100))| * (3/4) ≤ (3/4 : ℝ) := by
    nlinarith [abs_nonneg (Real.tanh (chirpAt i * (135/100)))]
  exact mul_le_mul_of_nonneg_right hstep henv

/-- The squared envelope is antitone on the decay phase. -/
lemma envAt_antitone (i j : ℕ) (h1 : 6250 ≤ i) (hij : i ≤ j) :
    envAt j ≤ envAt i := by
  have h1j : 6250 ≤ j := le_trans h1 hij
  have htij : (i : ℝ) / 48000 ≤ (j : ℝ) / 48000 := by
    apply div_le_div_of_nonneg_right ?_ (by norm_num)
    exact_mod_cast hij
  have hmono : env0At j ≤ env0At i := by
    rw [env0At_decay i h1, env0At_decay j h1j]
    refine max_le_max ?_ le_rfl
    refine div_le_div_of_nonneg_right ?_ (by norm_num)
    linarith
  have hj0 : 0 ≤ env0At j := by
    rw [env0At_decay j h1j]
    exact le_max_right _ _
  unfold envAt
  exact mul_self_le_mul_self hj0 hmono

/-- The squared envelope at the last sample is below 10⁻⁷. -/
lemma envAt_end_small : envAt 6719 ≤ 1/10000000 := by
  have h : env0At 6719 = (14/100 - (6719 : ℝ)/48000) / (14/100 - 1/100) := by
    rw [env0At_decay 6719 (by norm_num)]
    rw [max_eq_left (by norm_num)]
    norm_num
  unfold envAt
  rw [h]
  norm_num

/-- C5 (confirmed): the synthesizer is a pure function (any two invocations
agree), its buffer is mono at 48 kHz with exactly 6720 = round(0.14·48000)
samples, and over the final seven percent of the buffer every sample is
bounded by (3/4)·envelope², with the envelope² antitone there and below
10⁻⁷ at the last sample: the tail decays toward zero without having to
reach it. -/
theorem enemy_pickup_deterministic_shape :
    (∀ u v : Unit, enemy_pickup_source u = enemy_pickup_source v)
    ∧ (enemy_pickup_source ()).channels = 1
    ∧ (enemy_pickup_source ()).sample_rate = 48000
    ∧ (enemy_pickup_source ()).data.length = n_samples
    ∧ n_samples = 6720
    ∧ (∀ i : ℕ, 6250 ≤ i → i < 6720 → |sampleAt i| ≤ (3/4) * envAt i)
    ∧ (∀ i j : ℕ, 6250 ≤ i → i ≤ j → j < 6720 → envAt j ≤ envAt i)
    ∧ envAt 6719 ≤ 1/10000000 := by
  refine ⟨fun u v => rfl, rfl, rfl, ?_, ?_, ?_, ?_, envAt_end_small⟩
  · simp [enemy_pickup_source]
  · have hf : (⌊(14:ℚ)/100 * 48000⌋) = 6720 := by norm_num
    simp [n_samples, hf]
  · exact fun i hi _ => sample_decay_bound i hi
  · exact fun i j hi hij _ => envAt_antitone i j hi hij

/-- Witness for enemy_pickup_deterministic_shape inside the decaying tail. -/
theorem enemy_pickup_deterministic_shape_witness :
    |sampleAt 6700| ≤ (3/4) * envAt 6700 ∧ envAt 6719 ≤ envAt 6250 :=
  ⟨enemy_pickup_deterministic_shape.2.2.2.2.2.1 6700 (by decide) (by decide),
   enemy_pickup_deterministic_shape.2.2.2.2.2.2.1 6250 6719 (by decide) (by decide) (by decide)⟩

end VibeAudio
